import Mathlib

/-!
# Shallow embedding of `JitsiLocalTrack` (modules/RTC/JitsiLocalTrack.ts)

This file embeds the mute/unmute state machine, the effect pipeline, the
device-resolution watcher and the constraint-application operation of the
local-track controller as executable Lean functions, and proves the
specification claims about them.

Modelling conventions:
* JavaScript promises are settled values: an asynchronous operation is a pure
  function from the track state and an environment of external-call outcomes
  (`MuteEnv` / `ApplyEnv`) to the new state, a trace of external calls
  (`List Ev`) and a result (`Except TrackErr Unit`).
* External collaborators (capture acquisition, peer connection, presence) are
  oracles recorded in the environment; invoking one appends an event to the
  trace.
* `MediaStream` / `MediaStreamTrack` are records carrying exactly the fields
  the embedded code reads.
-/

/-- Media kind of a track (`track.kind` / `JitsiTrack.getType()`). -/
inductive MediaType where
  | audio
  | video
  deriving DecidableEq, Repr

/-- Video subtype (`VideoType`); absent for audio tracks. -/
inductive VideoType where
  | camera
  | desktop
  deriving DecidableEq, Repr

/-- The audio settings / constraints record used by `applyConstraints`
(`MediaStreamTrack.getSettings()` merged with `IAudioConstraints`);
`none` models an absent key. -/
structure AudioSettings where
  deviceId : Option String := none
  autoGainControl : Option Bool := none
  echoCancellation : Option Bool := none
  noiseSuppression : Option Bool := none
  deriving DecidableEq, Repr

/-- A `MediaStreamTrack`: the fields the embedded code reads.
`readyState = none` models a platform where the property is undefined. -/
structure MTrack where
  kind : MediaType
  label : String := ""
  enabled : Bool := true
  readyState : Option String := some "live"
  settings : AudioSettings := {}
  deriving DecidableEq, Repr

/-- A `MediaStream`: liveness flag (`stream.active`, read by the base-class
`isActive`) and its tracks. -/
structure MStream where
  active : Bool := true
  tracks : List MTrack := []
  deriving DecidableEq, Repr

/-- One element of the list resolved by
`RTCUtils.obtainAudioAndVideoPermissions` (`IStreamInfo`). -/
structure StreamInfo where
  stream : Option MStream
  track : MTrack
  videoType : Option VideoType := none

/-- One entry of an `enumerateDevices()` list (`MediaDeviceInfo`). -/
structure DeviceInfo where
  deviceId : String
  kind : String
  label : String := ""
  deriving DecidableEq, Repr

/-- An `IStreamEffect`. `isEnabledRes` is the value of `isEnabled(this)` on
this track; `effIsMuted` is `some b` when the effect implements `isMuted()`
and currently reports `b`; `hasSetMuted` says whether `setMuted` is
implemented; `start` is `startEffect` (the output stream produced from the
input stream). -/
structure Effect where
  isEnabledRes : Bool
  effIsMuted : Option Bool := none
  hasSetMuted : Bool := false
  start : Option MStream → MStream

/-- Errors thrown/rejected by the embedded operations (`JitsiTrackError`
codes and plain `Error`s; `external` wraps an error propagated from an
external collaborator). -/
inductive TrackErr where
  | trackIsDisposed
  | noStreamFound
  | constraintFailed
  | general
  | incompatibleEffect
  | effectInProgress
  | notAudio
  | effectActive
  | external (msg : String)
  deriving DecidableEq, Repr

/-- The request record passed to capture acquisition by `applyConstraints`:
the merged constraint set and the `micDeviceId` option. -/
structure ObtainReq where
  constraintsAudio : AudioSettings
  micDeviceId : Option String
  deriving DecidableEq, Repr

/-- Trace events: calls made to external collaborators. -/
inductive Ev where
  /-- `conference._removeLocalTrackFromPc(this)` was invoked. -/
  | removeFromPc
  /-- `conference._addLocalTrackToPc(this)` was invoked. -/
  | addToPc
  /-- `RTCUtils.obtainAudioAndVideoPermissions` was invoked (unmute path). -/
  | obtainCapture
  /-- `RTCUtils.obtainAudioAndVideoPermissions` was invoked by
  `applyConstraints` with the given request. -/
  | obtainWithReq (req : ObtainReq)
  /-- `RTCUtils.stopMediaStream(this.stream)` was invoked (`stopStream`). -/
  | releaseCapture
  /-- `effect.startEffect(...)` was invoked. -/
  | startEffectEv
  /-- `effect.stopEffect()` was invoked. -/
  | stopEffectEv
  /-- `effect.setMuted(b)` was invoked. -/
  | effectSetMuted (b : Bool)
  /-- `RTCUtils.attachMediaStream(container, stream)` was invoked. -/
  | attachContainer
  /-- `conference._setTrackMuteStatus(this, b)` was invoked. -/
  | sendMuteStatus (b : Bool)
  /-- `conference.room.sendPresence()` was invoked. -/
  | sendPresence
  /-- `conference._sendBridgeVideoTypeMessage(this)` was invoked. -/
  | bridgeVideoType
  /-- `this.emit(TRACK_MUTE_CHANGED, this)` was emitted. -/
  | emitMuteChanged
  deriving DecidableEq, Repr

/-- Browser/platform policy flags read by `_setMuted`
(`browser.isReactNative()` and `browser.doesVideoMuteByStreamRemove()`). -/
structure BrowserCfg where
  isReactNative : Bool
  videoMuteByStreamRemove : Bool

/-- Outcomes of the external calls a queued mute/unmute or `setEffect`
operation can make. -/
structure MuteEnv where
  removeFromPcRes : Except String Unit
  obtainRes : Except String (List StreamInfo)
  addToPcRes : Except String Unit
  muteStatusChanged : Bool

/-- Outcomes of the external calls `applyConstraints` can make; capture
acquisition is a function of the request so that the two attempts can have
different outcomes. -/
structure ApplyEnv where
  removeFromPcRes : Except String Unit
  obtain : ObtainReq → Except String (List StreamInfo)
  addToPcRes : Except String Unit

/-- The mutable state of one `JitsiLocalTrack` (the fields the embedded
operations read or write).  `containers` is the number of attached
render-sink containers; `hasConference` models `this.conference !== null`. -/
structure TrackState where
  mediaType : MediaType
  videoType : Option VideoType := none
  stream : Option MStream := none
  track : Option MTrack := none
  streamEffect : Option Effect := none
  originalStream : Option MStream := none
  setEffectInProgress : Bool := false
  disposed : Bool := false
  trackEnded : Bool := false
  deviceId : String := ""
  realDeviceId : Option String := none
  hasConference : Bool := false
  containers : Nat := 0
  stopStreamInProgress : Bool := false

/-- Modelled from the spec: the base-class `JitsiTrack.isActive()` (absent
from `src/`) reports whether the capture handle is live (`stream.active`). -/
def isActiveFn (st : MStream) : Bool :=
  st.active

/-- `!this.track?.enabled` evaluates to `true` when `track` is null. -/
def trackEnabled (s : TrackState) : Bool :=
  (s.track.map (fun t => t.enabled)).getD false

/-- `JitsiLocalTrack.isMuted()`: null stream means muted; an inactive video
stream means muted; an effect exposing its own `isMuted` takes priority;
otherwise the track's `enabled` flag decides. -/
def isMutedFn (s : TrackState) : Bool :=
  match s.stream with
  | none => true
  | some st =>
    if s.mediaType == MediaType.video && !isActiveFn st then
      true
    else
      match s.streamEffect with
      | some e =>
        match e.effIsMuted with
        | some b => b
        | none => !trackEnabled s
      | none => !trackEnabled s

/-- `doesVideoMuteByStreamRemove` as computed inside `_setMuted`: on React
Native only desktop tracks mute by stream removal, otherwise the browser
policy decides. -/
def doesVideoMuteByStreamRemove (cfg : BrowserCfg) (s : TrackState) : Bool :=
  if cfg.isReactNative then s.videoType == some VideoType.desktop
  else cfg.videoMuteByStreamRemove

/-- `effect.setMuted(m)`: updates the effect-internal mute state when the
effect exposes one. -/
def effectSetMutedFn (e : Effect) (m : Bool) : Effect :=
  { e with effIsMuted := e.effIsMuted.map (fun _ => m) }

/-- `this.track.enabled = b` (a no-op when `this.track` is null, mirroring
the `else if (this.track)` guard). -/
def setTrackEnabled (s : TrackState) (b : Bool) : TrackState :=
  match s.track with
  | some t => { s with track := some { t with enabled := b } }
  | none => s

/-- `_startStreamEffect(effect)`: record the effect, stash the pre-effect
stream, adopt the effect's output stream and its first track. -/
def startStreamEffectFn (e : Effect) (s : TrackState) : TrackState :=
  let out := e.start s.stream
  { s with
    streamEffect := some e
    originalStream := s.stream
    stream := some out
    track := out.tracks.head? }

/-- `_stopStreamEffect()`: stop the effect and restore the pre-effect
stream. NOTE: the source does *not* clear `_streamEffect` here (the callers
that want it cleared do that themselves). -/
def stopStreamEffectFn (s : TrackState) : TrackState × List Ev :=
  match s.streamEffect with
  | some _ =>
    ({ s with
        stream := s.originalStream
        originalStream := none
        track :=
          match s.originalStream with
          | some st => st.tracks.head?
          | none => none },
      [Ev.stopEffectEv])
  | none => (s, [])

/-- `_switchStreamEffect(effect?)`: stop and clear the current effect (if
any), then start the new one (if given). -/
def switchStreamEffectFn (effect : Option Effect) (s : TrackState) :
    TrackState × List Ev :=
  let r :=
    match s.streamEffect with
    | some _ =>
      let r0 := stopStreamEffectFn s
      ({ r0.1 with streamEffect := none }, r0.2)
    | none => (s, ([] : List Ev))
  match effect with
  | some e => (startStreamEffectFn e r.1, r.2 ++ [Ev.startEffectEv])
  | none => r

/-- `setEffect(effect?)` (public): guard order is (1) nothing-to-do, (2)
incompatible effect, (3) single-flight, (4) muted non-audio records only,
(5) no conference switches locally, (6) conference path with detach /
switch / reattach and rollback to "no effect" on failure. -/
def setEffectFn (env : MuteEnv) (s : TrackState) (effect : Option Effect) :
    TrackState × List Ev × Except TrackErr Unit :=
  if s.streamEffect.isNone && effect.isNone then
    (s, [], Except.ok ())
  else if effect.any (fun e => !e.isEnabledRes) then
    (s, [], Except.error TrackErr.incompatibleEffect)
  else if s.setEffectInProgress then
    (s, [], Except.error TrackErr.effectInProgress)
  else if isMutedFn s && !(s.mediaType == MediaType.audio) then
    ({ s with streamEffect := effect }, [], Except.ok ())
  else if !s.hasConference then
    let r := switchStreamEffectFn effect s
    let attachEvs :=
      if r.1.mediaType == MediaType.video then
        List.replicate r.1.containers Ev.attachContainer
      else []
    (r.1, r.2 ++ attachEvs, Except.ok ())
  else
    let s0 := { s with setEffectInProgress := true }
    match env.removeFromPcRes with
    | Except.error msg =>
      -- catch: clear the flag, roll back to "no effect", rethrow
      let r := switchStreamEffectFn none { s0 with setEffectInProgress := false }
      (r.1, [Ev.removeFromPc] ++ r.2, Except.error (TrackErr.external msg))
    | Except.ok _ =>
      let r1 := switchStreamEffectFn effect s0
      let attachEvs :=
        if r1.1.mediaType == MediaType.video then
          List.replicate r1.1.containers Ev.attachContainer
        else []
      match env.addToPcRes with
      | Except.ok _ =>
        ({ r1.1 with setEffectInProgress := false },
          [Ev.removeFromPc] ++ r1.2 ++ attachEvs ++ [Ev.addToPc],
          Except.ok ())
      | Except.error msg =>
        let r2 := switchStreamEffectFn none { r1.1 with setEffectInProgress := false }
        (r2.1,
          [Ev.removeFromPc] ++ r1.2 ++ attachEvs ++ [Ev.addToPc] ++ r2.2,
          Except.error (TrackErr.external msg))

/-- The stream a track would expose with no effect active: the stashed
pre-effect stream when an effect is running, the current stream otherwise. -/
def rawStream (s : TrackState) : Option MStream :=
  match s.streamEffect with
  | some _ => s.originalStream
  | none => s.stream

/-- `_sendMuteStatus(mute)`: report the mute status to the conference; a
presence update is sent only when `_setTrackMuteStatus` reports a change. -/
def sendMuteStatusEvs (env : MuteEnv) (s : TrackState) (muted : Bool) : List Ev :=
  if s.hasConference then
    [Ev.sendMuteStatus muted] ++ (if env.muteStatusChanged then [Ev.sendPresence] else [])
  else []

/-- The final `.then` continuation of `_setMuted`: send the mute status,
send the bridge video-type message for video tracks with a conference, and
emit `TRACK_MUTE_CHANGED`. Runs only when the chosen path succeeded. -/
def finishMute (env : MuteEnv) (s : TrackState) (muted : Bool) (evs : List Ev) :
    TrackState × List Ev × Except TrackErr Unit :=
  let evs := evs ++ sendMuteStatusEvs env s muted
  let evs :=
    evs ++ (if s.mediaType == MediaType.video && s.hasConference then [Ev.bridgeVideoType] else [])
  (s, evs ++ [Ev.emitMuteChanged], Except.ok ())

/-- The success callback body of the hard-mute path: stop an active effect
(without clearing `_streamEffect`), release the capture
(`stopStream` toggles `_stopStreamInProgress` and restores it to `false`),
and clear the stored stream reference. `_unregisterHandlers()` touches only
handler registrations, which are not part of this state. -/
def hardMuteBody (s : TrackState) : TrackState × List Ev :=
  let r :=
    match s.streamEffect with
    | some _ => stopStreamEffectFn s
    | none => (s, ([] : List Ev))
  let s2 := { r.1 with stopStreamInProgress := false }
  ({ s2 with stream := none }, r.2 ++ [Ev.releaseCapture])

/-- `_setMuted(muted)`: no-op guard, disposed guard, then the soft path
(audio or non-stream-remove video), the hard-mute path (detach from the
peer connection, release capture) or the hard-unmute path (re-acquire
capture, validate kind, adopt, restart effect, re-attach containers and
peer connection). -/
def setMutedFn (cfg : BrowserCfg) (env : MuteEnv) (s : TrackState) (muted : Bool) :
    TrackState × List Ev × Except TrackErr Unit :=
  if isMutedFn s == muted && s.videoType != some VideoType.desktop then
    (s, [], Except.ok ())
  else if s.disposed then
    (s, [], Except.error TrackErr.trackIsDisposed)
  else if s.mediaType == MediaType.audio || !doesVideoMuteByStreamRemove cfg s then
    -- soft path: an effect with its own mute functionality has priority,
    -- otherwise toggle the raw track's enabled flag
    let r :=
      match s.streamEffect with
      | some e =>
        if e.hasSetMuted then
          ({ s with streamEffect := some (effectSetMutedFn e muted) },
            [Ev.effectSetMuted muted])
        else (setTrackEnabled s !muted, ([] : List Ev))
      | none => (setTrackEnabled s !muted, ([] : List Ev))
    finishMute env r.1 muted r.2
  else if muted then
    -- hard mute: remove from the peer connection, then tear down locally
    if !s.hasConference then
      let r := hardMuteBody s
      finishMute env r.1 muted r.2
    else
      match env.removeFromPcRes with
      | Except.ok _ =>
        let r := hardMuteBody s
        finishMute env r.1 muted ([Ev.removeFromPc] ++ r.2)
      | Except.error msg => (s, [Ev.removeFromPc], Except.error (TrackErr.external msg))
  else
    -- hard unmute: the camera/desktop streamOptions only shape the external
    -- call, whose outcome is `env.obtainRes`
    match env.obtainRes with
    | Except.error msg => (s, [Ev.obtainCapture], Except.error (TrackErr.external msg))
    | Except.ok streamsInfo =>
      match streamsInfo.find? (fun info => info.track.kind == s.mediaType) with
      | none => (s, [Ev.obtainCapture], Except.error TrackErr.noStreamFound)
      | some info =>
        let s1 :=
          { s with
            stream := info.stream
            track := some info.track
            videoType := if s.videoType == info.videoType then s.videoType else info.videoType }
        let r2 :=
          match s1.streamEffect with
          | some e => (startStreamEffectFn e s1, [Ev.startEffectEv])
          | none => (s1, ([] : List Ev))
        let attachEvs := List.replicate r2.1.containers Ev.attachContainer
        if !r2.1.hasConference then
          finishMute env r2.1 muted ([Ev.obtainCapture] ++ r2.2 ++ attachEvs)
        else
          match env.addToPcRes with
          | Except.ok _ =>
            finishMute env r2.1 muted
              ([Ev.obtainCapture] ++ r2.2 ++ attachEvs ++ [Ev.addToPc])
          | Except.error msg =>
            (r2.1, [Ev.obtainCapture] ++ r2.2 ++ attachEvs ++ [Ev.addToPc],
              Except.error (TrackErr.external msg))

/-- `Promise.then(onFulfilled, onRejected)` on a settled promise. -/
def promiseThen (prev : Except TrackErr Unit)
    (onOk : Unit → TrackState × List Ev × Except TrackErr Unit)
    (onErr : TrackErr → TrackState × List Ev × Except TrackErr Unit) :
    TrackState × List Ev × Except TrackErr Unit :=
  match prev with
  | Except.ok u => onOk u
  | Except.error e => onErr e

/-- `_queueSetMuted(muted)`: chain `_setMuted` onto the previous submission
via both the success and the failure continuation
(`this._prevSetMuted.then(setMuted, setMuted)`). -/
def queueSetMuted (cfg : BrowserCfg) (env : MuteEnv) (s : TrackState)
    (prev : Except TrackErr Unit) (muted : Bool) :
    TrackState × List Ev × Except TrackErr Unit :=
  promiseThen prev (fun _ => setMutedFn cfg env s muted) (fun _ => setMutedFn cfg env s muted)

/-- Run a list of mute/unmute submissions through the transition queue in
arrival order, threading the state and the previous submission's settled
result; returns the final state, the final settled result and the list of
per-submission results in submission order. -/
def runQueue (cfg : BrowserCfg) (subs : List (Bool × MuteEnv)) (s : TrackState)
    (prev : Except TrackErr Unit) :
    TrackState × Except TrackErr Unit × List (Except TrackErr Unit) :=
  match subs with
  | [] => (s, prev, [])
  | (m, env) :: rest =>
    let r := queueSetMuted cfg env s prev m
    let rest2 := runQueue cfg rest r.1 r.2.2
    (rest2.1, rest2.2.1, r.2.2 :: rest2.2.2)

/-- `'audioinput'` / `'videoinput'` (`track.kind + 'input'`). -/
def kindInput : MediaType → String
  | MediaType.audio => "audioinput"
  | MediaType.video => "videoinput"

/-- JavaScript `String.replace` with a string pattern replaces only the
first occurrence. -/
def jsReplaceFirst (s pat rep : String) : String :=
  match s.splitOn pat with
  | [] => s
  | [x] => x
  | x :: rest => x ++ rep ++ String.intercalate pat rest

/-- The device matching performed by `_setRealDeviceIdFromDeviceList`:
match by (kind, label, requested device id); if no match and the previously
resolved id was `'default'`, retry by label with the `'Default - '` text
stripped; the result is the match's id or undefined. -/
def resolveRealDeviceId (t : MTrack) (deviceId : String) (realDeviceId : Option String)
    (devices : List DeviceInfo) : Option String :=
  let kind := kindInput t.kind
  let device :=
    devices.find? fun d => d.kind == kind && d.label == t.label && d.deviceId == deviceId
  let device :=
    match device with
    | some d => some d
    | none =>
      if realDeviceId == some "default" then
        let label := jsReplaceFirst t.label "Default - " ""
        devices.find? fun d => d.kind == kind && d.label == label
      else none
  match device with
  | some d => some d.deviceId
  | none => none

/-- The state update performed by `_setRealDeviceIdFromDeviceList`: assign
the resolved id (or undefined) to `_realDeviceId`. The source reads
`this.getTrack()`; with a null track it would throw, so the null case is
left unchanged here and never exercised. -/
def setRealDeviceIdFromDeviceList (s : TrackState) (devices : List DeviceInfo) :
    TrackState :=
  match s.track with
  | none => s
  | some t => { s with realDeviceId := resolveRealDeviceId t s.deviceId s.realDeviceId devices }

/-- `_onDeviceListWillChange(devices)`: re-resolve the device id, then mark
the track ended when (a) the track exposes no `readyState` and the resolved
device is not in the new list, or (b) a previously resolved id flipped to
undefined. `_trackEnded` is only ever set to `true`. -/
def onDeviceListWillChange (s : TrackState) (devices : List DeviceInfo) : TrackState :=
  match s.track with
  | none => s
  | some t =>
    let oldRealDeviceId := s.realDeviceId
    let s1 := setRealDeviceIdFromDeviceList s devices
    if (t.readyState == none && s1.realDeviceId.isSome
          && (devices.find? (fun d => some d.deviceId == s1.realDeviceId)).isNone)
        || (oldRealDeviceId.isSome && s1.realDeviceId.isNone) then
      { s1 with trackEnded := true }
    else s1

/-- Apply a sequence of device-enumeration-changed notifications in order. -/
def foldDeviceNotifications (dss : List (List DeviceInfo)) (s : TrackState) : TrackState :=
  match dss with
  | [] => s
  | ds :: rest => foldDeviceNotifications rest (onDeviceListWillChange s ds)

/-- JavaScript spread `{...init, ...cons}`: a key present in `cons`
overrides `init`. -/
def mergeSettings (init cons : AudioSettings) : AudioSettings :=
  { deviceId := cons.deviceId.orElse fun _ => init.deviceId
    autoGainControl := cons.autoGainControl.orElse fun _ => init.autoGainControl
    echoCancellation := cons.echoCancellation.orElse fun _ => init.echoCancellation
    noiseSuppression := cons.noiseSuppression.orElse fun _ => init.noiseSuppression }

/-- `applyConstraints(constraints)` (audio only): detach from the peer
connection, stop an audio-mix effect, release the capture, re-acquire with
the merged constraints; on any failure of that attempt (including a missing
stream, which throws a caught `CONSTRAINT_FAILED`), retry once with the
initial `getSettings()` snapshot while still passing the merged `deviceId`
as `micDeviceId`; adopt the resulting stream, restart the audio-mix effect
and re-attach to the peer connection. -/
def applyConstraintsFn (env : ApplyEnv) (s : TrackState) (constraints : AudioSettings) :
    TrackState × List Ev × Except TrackErr Unit :=
  if !(s.mediaType == MediaType.audio) then
    (s, [], Except.error TrackErr.notAudio)
  else
    let hasAudioMixEffect := s.streamEffect.any (fun e => e.hasSetMuted)
    if s.streamEffect.isSome && !hasAudioMixEffect then
      (s, [], Except.error TrackErr.effectActive)
    else if !s.hasConference then
      -- `this.conference._removeLocalTrackFromPc(this)` throws on a null conference
      (s, [], Except.error (TrackErr.external "conference is null"))
    else
      match env.removeFromPcRes with
      | Except.error msg => (s, [Ev.removeFromPc], Except.error (TrackErr.external msg))
      | Except.ok _ =>
        let r1 :=
          if hasAudioMixEffect then stopStreamEffectFn s else (s, ([] : List Ev))
        let s2 := { r1.1 with stopStreamInProgress := false }
        let evs2 := [Ev.removeFromPc] ++ r1.2 ++ [Ev.releaseCapture]
        match s2.track with
        | none => (s2, evs2, Except.error (TrackErr.external "track is null"))
        | some t =>
          let initialSettings := t.settings
          let constraintsToApply := mergeSettings initialSettings constraints
          let req1 : ObtainReq := ⟨constraintsToApply, constraintsToApply.deviceId⟩
          let retryReq : ObtainReq := ⟨initialSettings, constraintsToApply.deviceId⟩
          let retryStep : List Ev × Except TrackErr (Option StreamInfo) :=
            ([Ev.obtainWithReq req1, Ev.obtainWithReq retryReq],
              match env.obtain retryReq with
              | Except.ok ds => Except.ok ds.head?
              | Except.error m => Except.error (TrackErr.external m))
          let tryStep :=
            match env.obtain req1 with
            | Except.ok datas =>
              match datas.head? with
              | some d =>
                if d.stream.isSome then
                  (([Ev.obtainWithReq req1] : List Ev), Except.ok (some d))
                else retryStep
              | none => retryStep
            | Except.error _ => retryStep
          match tryStep.2 with
          | Except.error e => (s2, evs2 ++ tryStep.1, Except.error e)
          | Except.ok od =>
            match od with
            | none => (s2, evs2 ++ tryStep.1, Except.error TrackErr.general)
            | some d =>
              match d.stream with
              | none => (s2, evs2 ++ tryStep.1, Except.error TrackErr.general)
              | some _ =>
                let s3 := { s2 with stream := d.stream, track := some d.track }
                let r4 :=
                  if hasAudioMixEffect then
                    match s3.streamEffect with
                    | some e => (startStreamEffectFn e s3, [Ev.startEffectEv])
                    | none => (s3, ([] : List Ev))
                  else (s3, ([] : List Ev))
                let evsAll := evs2 ++ tryStep.1 ++ r4.2 ++ [Ev.addToPc]
                match env.addToPcRes with
                | Except.ok _ => (r4.1, evsAll, Except.ok ())
                | Except.error msg => (r4.1, evsAll, Except.error (TrackErr.external msg))

/-- A browser policy with no stream-removal muting (plain desktop browser). -/
def cfg0 : BrowserCfg := ⟨false, false⟩

/-- A browser policy that mutes video by stream removal. -/
def cfgStreamRemove : BrowserCfg := ⟨false, true⟩

/-- An environment in which every external call succeeds. -/
def env0 : MuteEnv := ⟨Except.ok (), Except.ok [], Except.ok (), false⟩

/-- A disposed audio track with no capture stream (derived mute state is
`true`). -/
def disposedMutedTrack : TrackState :=
  { mediaType := MediaType.audio, disposed := true }

/-- A muted (streamless) camera track used by the C6 witness. -/
def mutedCameraTrack : TrackState :=
  { mediaType := MediaType.video, videoType := some VideoType.camera }

/-- A hard-muted camera track (capture released) used by the C7 witness. -/
def hardMutedCamera : TrackState :=
  { mediaType := MediaType.video, videoType := some VideoType.camera }

/-- An acquisition result holding only an audio stream. -/
def audioOnlyInfo : StreamInfo := ⟨some {}, { kind := MediaType.audio }, none⟩

/-- An environment whose capture acquisition yields only an audio stream. -/
def envAudioOnly : MuteEnv := ⟨Except.ok (), Except.ok [audioOnlyInfo], Except.ok (), false⟩

/-- A track with a `setEffect` switch already underway and no recorded
effect. -/
def inProgressNoEffectTrack : TrackState :=
  { mediaType := MediaType.video
    videoType := some VideoType.camera
    stream := some {}
    setEffectInProgress := true }

/-- An effect whose compatibility predicate rejects the track. -/
def effIncompatible : Effect := { isEnabledRes := false, start := fun _ => {} }

/-- A live camera track with a `setEffect` switch already underway. -/
def inProgressTrack : TrackState :=
  { mediaType := MediaType.video
    videoType := some VideoType.camera
    stream := some {}
    track := some { kind := MediaType.video }
    setEffectInProgress := true }

/-- A compatible effect used by the C5 witness. -/
def effCompatible : Effect := { isEnabledRes := true, start := fun _ => {} }

/-- A second in-progress track used by the C5 witness. -/
def inProgressTrack2 : TrackState :=
  { mediaType := MediaType.audio
    stream := some {}
    track := some { kind := MediaType.audio }
    setEffectInProgress := true }

/-- The pre-effect capture stream used in the C4 witness. -/
def preEffectStream : MStream := { active := true, tracks := [{ kind := MediaType.audio }] }

/-- A live audio track attached to a conference, with no active effect. -/
def trackC4 : TrackState :=
  { mediaType := MediaType.audio
    stream := some preEffectStream
    track := some { kind := MediaType.audio }
    hasConference := true }

/-- A compatible effect used by the C4 witness. -/
def effC4 : Effect := { isEnabledRes := true, start := fun _ => { active := true } }

/-- An environment in which detaching from the peer connection fails. -/
def envRemoveFail : MuteEnv :=
  ⟨Except.error "pcfail", Except.ok [], Except.ok (), false⟩

/-- The single enumerated device `"A"` of the C8 witness scenario. -/
def deviceA : DeviceInfo := { deviceId := "A", kind := "audioinput", label := "Mic A" }

/-- An audio track whose device id resolved to `"A"`. -/
def trackResolvedA : TrackState :=
  { mediaType := MediaType.audio
    stream := some { active := true, tracks := [{ kind := MediaType.audio, label := "Mic A" }] }
    track := some { kind := MediaType.audio, label := "Mic A" }
    deviceId := "A"
    realDeviceId := some "A" }

/-- The same track after device `"A"` disappeared: unresolved and ended. -/
def endedTrackA : TrackState :=
  { trackResolvedA with trackEnded := true, realDeviceId := none }

/-- A hard-muted (streamless) camera track with no recorded effect. -/
def mutedVideoNoEffect : TrackState :=
  { mediaType := MediaType.video, videoType := some VideoType.camera }

/-- The compatible effect recorded and lazily started in the C9 witness. -/
def effLazy : Effect :=
  { isEnabledRes := true
    start := fun _ => { active := true, tracks := [{ kind := MediaType.video }] } }

/-- A hard-muted camera track carrying the recorded effect. -/
def hardMutedVideoWithEffect : TrackState :=
  { mediaType := MediaType.video
    videoType := some VideoType.camera
    streamEffect := some effLazy }

/-- The stream info returned by re-acquisition in the C9 witness. -/
def camInfo : StreamInfo :=
  ⟨some { active := true, tracks := [{ kind := MediaType.video }] },
    { kind := MediaType.video }, some VideoType.camera⟩

/-- An environment whose capture acquisition yields the camera stream. -/
def envCam : MuteEnv := ⟨Except.ok (), Except.ok [camInfo], Except.ok (), false⟩

/-- The original (pre-change) settings of the C3 track. -/
def origSettings : AudioSettings := { deviceId := some "orig" }

/-- An audio track attached to a conference whose capture settings carry the
original device id. -/
def trackC3 : TrackState :=
  { mediaType := MediaType.audio
    stream := some { active := true, tracks := [{ kind := MediaType.audio }] }
    track := some { kind := MediaType.audio, settings := origSettings }
    hasConference := true }

/-- The stream info produced by the retry acquisition in the C3 scenario. -/
def retryInfo : StreamInfo :=
  ⟨some { active := true, tracks := [{ kind := MediaType.audio }] },
    { kind := MediaType.audio, settings := origSettings }, none⟩

/-- An environment in which acquisition fails whenever the constraint set
carries the new device id `"X"` and succeeds otherwise. -/
def envC3 : ApplyEnv :=
  ⟨Except.ok (),
    fun req =>
      if req.constraintsAudio.deviceId == some "X" then Except.error "gum failed"
      else Except.ok [retryInfo],
    Except.ok ()⟩

/-- The constraint change requesting the new device `"X"`. -/
def consX : AudioSettings := { deviceId := some "X" }

/-- The microphone track record of the C3 track. -/
def micTrackC3 : MTrack := { kind := MediaType.audio, settings := origSettings }

/-- The stream adopted from the retry acquisition in the C3 scenario. -/
def retryStream : MStream := { active := true, tracks := [{ kind := MediaType.audio }] }

/-! ## C1 — mute transition queue -/

/-- C1: submissions through the mute transition queue execute one at a time
in FIFO submission order (running a concatenation of submission lists is
running the first list and then the second from the reached state and
settled result), every submission produces a result (the queue never stops
advancing), and a submission executes identically whether the previous
settled result was a failure or a success (`then(setMuted, setMuted)`
chains via both continuations). -/
theorem queueSetMuted_fifo_and_advances (cfg : BrowserCfg) :
    (∀ env s e m, queueSetMuted cfg env s (Except.error e) m = setMutedFn cfg env s m ∧
        queueSetMuted cfg env s (Except.ok ()) m = setMutedFn cfg env s m) ∧
    (∀ subs₁ subs₂ s prev,
        runQueue cfg (subs₁ ++ subs₂) s prev =
          ((runQueue cfg subs₂ (runQueue cfg subs₁ s prev).1 (runQueue cfg subs₁ s prev).2.1).1,
            (runQueue cfg subs₂ (runQueue cfg subs₁ s prev).1 (runQueue cfg subs₁ s prev).2.1).2.1,
            (runQueue cfg subs₁ s prev).2.2
              ++ (runQueue cfg subs₂ (runQueue cfg subs₁ s prev).1
                    (runQueue cfg subs₁ s prev).2.1).2.2)) ∧
    (∀ subs s prev, (runQueue cfg subs s prev).2.2.length = subs.length) := by
  refine ⟨fun env s e m => ⟨rfl, rfl⟩, ?_, ?_⟩
  · intro subs₁
    induction subs₁ with
    | nil => intro subs₂ s prev; simp [runQueue]
    | cons hd tl ih =>
      intro subs₂ s prev
      obtain ⟨m, env⟩ := hd
      simp only [List.cons_append, runQueue, List.append_eq]
      rw [ih]
  · intro subs
    induction subs with
    | nil => intro s prev; simp [runQueue]
    | cons hd tl ih =>
      intro s prev
      obtain ⟨m, env⟩ := hd
      simp only [runQueue, List.length_cons, ih]

/-! ## C2 — transitions on a disposed track -/

/-- C2 counterexample: on a disposed non-desktop track whose target state
equals its derived mute state, `_setMuted` resolves as a no-op instead of
rejecting with `TrackDisposed` — the no-op guard precedes the disposed
guard. -/
theorem setMuted_disposed_noop_counterexample :
    disposedMutedTrack.disposed = true ∧
    isMutedFn disposedMutedTrack = true ∧
    setMutedFn cfg0 env0 disposedMutedTrack true = (disposedMutedTrack, [], Except.ok ()) :=
  ⟨rfl, rfl, rfl⟩

/-- C2 (amended): on a disposed track, every mute/unmute transition that is
not the immediate no-op (target equals derived mute state on a non-desktop
track) fails with `TrackDisposed` and performs no state mutation and no
external call. -/
theorem setMuted_disposed_rejects (cfg : BrowserCfg) (env : MuteEnv) (s : TrackState)
    (muted : Bool)
    (hd : s.disposed = true)
    (h : ¬(isMutedFn s = muted ∧ s.videoType ≠ some VideoType.desktop)) :
    setMutedFn cfg env s muted = (s, [], Except.error TrackErr.trackIsDisposed) := by
  cases hb : (isMutedFn s == muted && s.videoType != some VideoType.desktop) with
  | true =>
    simp only [Bool.and_eq_true, beq_iff_eq, bne_iff_ne] at hb
    exact absurd hb h
  | false =>
    simp [setMutedFn, hb, hd]

/-- Witness for C2 (amended): a disposed muted audio track rejects an
unmute with `TrackDisposed`. -/
theorem setMuted_disposed_rejects_witness :
    setMutedFn cfg0 env0 disposedMutedTrack false
      = (disposedMutedTrack, [], Except.error TrackErr.trackIsDisposed) :=
  setMuted_disposed_rejects cfg0 env0 disposedMutedTrack false rfl (by decide)

/-! ## C6 — idempotent no-op transitions -/

/-- C6: on a non-disposed, non-desktop track, a mute/unmute transition whose
target equals the current derived mute state resolves immediately with no
state mutation and no external call (in particular no second capture
release: the trace is empty). -/
theorem setMuted_noop_idempotent (cfg : BrowserCfg) (env : MuteEnv) (s : TrackState)
    (muted : Bool)
    (_hd : s.disposed = false)
    (hv : s.videoType ≠ some VideoType.desktop)
    (hm : isMutedFn s = muted) :
    setMutedFn cfg env s muted = (s, [], Except.ok ()) := by
  have hb : (isMutedFn s == muted && s.videoType != some VideoType.desktop) = true := by
    simp [hm, bne_iff_ne, hv]
  simp [setMutedFn, hb]

/-- Witness for C6: muting an already-muted camera track resolves with no
mutation and no capture release. -/
theorem setMuted_noop_idempotent_witness :
    setMutedFn cfg0 env0 mutedCameraTrack true = (mutedCameraTrack, [], Except.ok ()) :=
  setMuted_noop_idempotent cfg0 env0 mutedCameraTrack true rfl (by decide) rfl

/-! ## C7 — hard unmute with no matching stream -/

/-- C7: on the hard-unmute path, when capture re-acquisition succeeds but
returns no stream whose media kind matches the track's kind, the operation
fails with `NoStreamFound` and the track keeps its prior state: the only
external call made is the acquisition itself (no handle adopted, no effect
restarted, no transport re-attachment). -/
theorem setMuted_unmute_noStreamFound (cfg : BrowserCfg) (env : MuteEnv) (s : TrackState)
    (infos : List StreamInfo)
    (hmt : s.mediaType = MediaType.video)
    (hdv : doesVideoMuteByStreamRemove cfg s = true)
    (hm : isMutedFn s = true)
    (hd : s.disposed = false)
    (hob : env.obtainRes = Except.ok infos)
    (hfind : infos.find? (fun info => info.track.kind == s.mediaType) = none) :
    setMutedFn cfg env s false = (s, [Ev.obtainCapture], Except.error TrackErr.noStreamFound) := by
  rw [hmt] at hfind
  simp [setMutedFn, hm, hd, hmt, hdv, hob, hfind]

/-- Witness for C7: unmuting a hard-muted camera track when acquisition
returns only an audio stream fails with `NoStreamFound` and leaves the
state unchanged. -/
theorem setMuted_unmute_noStreamFound_witness :
    setMutedFn cfgStreamRemove envAudioOnly hardMutedCamera false
      = (hardMutedCamera, [Ev.obtainCapture], Except.error TrackErr.noStreamFound) :=
  setMuted_unmute_noStreamFound cfgStreamRemove envAudioOnly hardMutedCamera
    [audioOnlyInfo] rfl rfl rfl rfl rfl rfl

/-! ## C10 — undefined effect with no active effect bypasses every guard -/

/-- C10: with no active effect, `setEffect(undefined)` resolves immediately
with no mutation and no external call, regardless of every other guard —
in particular regardless of `_setEffectInProgress`. -/
theorem setEffect_undefined_noEffect_resolves (env : MuteEnv) (s : TrackState)
    (h : s.streamEffect.isNone = true) :
    setEffectFn env s none = (s, [], Except.ok ()) := by
  simp [setEffectFn, h]

/-- Witness for C10: even while a switch is in progress, `setEffect(undefined)`
on an effect-free track resolves immediately without rejecting. -/
theorem setEffect_undefined_noEffect_resolves_witness :
    inProgressNoEffectTrack.setEffectInProgress = true ∧
    setEffectFn env0 inProgressNoEffectTrack none
      = (inProgressNoEffectTrack, [], Except.ok ()) :=
  ⟨rfl, setEffect_undefined_noEffect_resolves env0 inProgressNoEffectTrack rfl⟩

/-! ## C5 — setEffect guard order -/

/-- C5 counterexample: while a switch is in progress, a second `setEffect`
call with a *defined but incompatible* effect rejects with the
incompatible-effect error, not with the in-progress error — the
compatibility guard precedes the single-flight guard. -/
theorem setEffect_incompatible_wins_counterexample :
    inProgressTrack.setEffectInProgress = true ∧
    setEffectFn env0 inProgressTrack (some effIncompatible)
      = (inProgressTrack, [], Except.error TrackErr.incompatibleEffect) ∧
    (setEffectFn env0 inProgressTrack (some effIncompatible)).2.2
      ≠ Except.error TrackErr.effectInProgress := by
  refine ⟨rfl, rfl, fun h => ?_⟩
  rw [show (setEffectFn env0 inProgressTrack (some effIncompatible)).2.2
        = Except.error TrackErr.incompatibleEffect from rfl] at h
  injection h with h2
  exact TrackErr.noConfusion h2

/-- C5 (amended): a defined effect failing its compatibility check rejects
with the incompatible-effect error before any mutation; while a switch is
in progress, a second `setEffect` call with a defined *compatible* effect
rejects with the in-progress error before any mutation (leaving the first
switch's target effect to take effect). -/
theorem setEffect_guard_order (env : MuteEnv) (s : TrackState) (e : Effect) :
    (e.isEnabledRes = false →
      setEffectFn env s (some e) = (s, [], Except.error TrackErr.incompatibleEffect)) ∧
    (e.isEnabledRes = true → s.setEffectInProgress = true →
      setEffectFn env s (some e) = (s, [], Except.error TrackErr.effectInProgress)) := by
  constructor
  · intro h
    simp [setEffectFn, h]
  · intro h hp
    simp [setEffectFn, h, hp]

/-- Witness for C5 (amended): on a track mid-switch, an incompatible effect
rejects with the incompatible-effect error and a compatible one with the
in-progress error. -/
theorem setEffect_guard_order_witness :
    setEffectFn env0 inProgressTrack2 (some effIncompatible)
      = (inProgressTrack2, [], Except.error TrackErr.incompatibleEffect) ∧
    setEffectFn env0 inProgressTrack2 (some effCompatible)
      = (inProgressTrack2, [], Except.error TrackErr.effectInProgress) :=
  ⟨(setEffect_guard_order env0 inProgressTrack2 effIncompatible).1 rfl,
    (setEffect_guard_order env0 inProgressTrack2 effCompatible).2 rfl rfl⟩

/-! ## C4 — setEffect failure rollback -/

/-- C4: with a conference attached, if the detach-from-transport or
reattach-to-transport step of `setEffect` fails, the operation rejects with
the propagated error and rolls the track back to the "no effect" state:
no recorded effect, the single-flight flag cleared, and the stream restored
to the pre-effect capture handle. -/
theorem setEffect_failure_rollback (env : MuteEnv) (s : TrackState)
    (effect : Option Effect) (msg : String)
    (hg1 : (s.streamEffect.isNone && effect.isNone) = false)
    (hg2 : effect.any (fun e => !e.isEnabledRes) = false)
    (hg3 : s.setEffectInProgress = false)
    (hg4 : (isMutedFn s && !(s.mediaType == MediaType.audio)) = false)
    (hconf : s.hasConference = true)
    (hfail : env.removeFromPcRes = Except.error msg ∨
      (env.removeFromPcRes = Except.ok () ∧ env.addToPcRes = Except.error msg)) :
    (setEffectFn env s effect).2.2 = Except.error (TrackErr.external msg) ∧
    (setEffectFn env s effect).1.streamEffect = none ∧
    (setEffectFn env s effect).1.setEffectInProgress = false ∧
    (setEffectFn env s effect).1.stream = rawStream s := by
  rcases hfail with hrem | ⟨hrem, hadd⟩ <;>
    cases hse : s.streamEffect <;> cases effect <;>
      cases hm : isMutedFn s <;> cases hmt : s.mediaType <;>
        simp_all [setEffectFn, switchStreamEffectFn, stopStreamEffectFn,
          startStreamEffectFn, rawStream]

/-- Witness for C4: when the transport detach fails, `setEffect` rejects
with the propagated error and the track ends with no effect, the flag
cleared and its pre-effect stream. -/
theorem setEffect_failure_rollback_witness :
    (setEffectFn envRemoveFail trackC4 (some effC4)).2.2
        = Except.error (TrackErr.external "pcfail") ∧
    (setEffectFn envRemoveFail trackC4 (some effC4)).1.streamEffect = none ∧
    (setEffectFn envRemoveFail trackC4 (some effC4)).1.setEffectInProgress = false ∧
    (setEffectFn envRemoveFail trackC4 (some effC4)).1.stream = rawStream trackC4 :=
  setEffect_failure_rollback envRemoveFail trackC4 (some effC4) "pcfail"
    rfl rfl rfl rfl rfl (Or.inl rfl)

/-! ## C8 — device watcher: sticky `ended` flag -/

/-- Re-resolving the device id never touches `_trackEnded`. -/
theorem setRealDeviceId_trackEnded (s : TrackState) (ds : List DeviceInfo) :
    (setRealDeviceIdFromDeviceList s ds).trackEnded = s.trackEnded := by
  unfold setRealDeviceIdFromDeviceList
  cases s.track <;> rfl

/-- A device-list notification never touches `_realDeviceId` beyond the
re-resolution step. -/
theorem onDeviceListWillChange_realDeviceId (s : TrackState) (ds : List DeviceInfo) :
    (onDeviceListWillChange s ds).realDeviceId
      = (setRealDeviceIdFromDeviceList s ds).realDeviceId := by
  unfold onDeviceListWillChange setRealDeviceIdFromDeviceList
  cases s.track
  · rfl
  · dsimp only
    split <;> rfl

/-- A device-list notification never clears `_trackEnded`. -/
theorem onDeviceListWillChange_ended_mono (s : TrackState) (ds : List DeviceInfo)
    (h : s.trackEnded = true) :
    (onDeviceListWillChange s ds).trackEnded = true := by
  unfold onDeviceListWillChange setRealDeviceIdFromDeviceList
  cases s.track
  · exact h
  · dsimp only
    split
    · rfl
    · exact h

/-- C8: a device-enumeration notification sets `_trackEnded` when a
previously resolved device id flips from defined to undefined, or when the
capture track exposes no `readyState` and the freshly resolved device is
absent from the new list; and once `_trackEnded` is set, no later sequence
of notifications ever clears it (even one in which the device reappears). -/
theorem deviceWatch_ended_sticky :
    (∀ s devices,
        s.realDeviceId.isSome = true →
        (onDeviceListWillChange s devices).realDeviceId = none →
        (onDeviceListWillChange s devices).trackEnded = true) ∧
    (∀ s devices t,
        s.track = some t →
        t.readyState = none →
        (onDeviceListWillChange s devices).realDeviceId.isSome = true →
        (devices.find? fun d => some d.deviceId == (onDeviceListWillChange s devices).realDeviceId) = none →
        (onDeviceListWillChange s devices).trackEnded = true) ∧
    (∀ dss s, s.trackEnded = true → (foldDeviceNotifications dss s).trackEnded = true) := by
  refine ⟨?_, ?_, ?_⟩
  · intro s devices hold hnew
    rw [onDeviceListWillChange_realDeviceId] at hnew
    unfold onDeviceListWillChange
    cases htr : s.track
    · have hs : setRealDeviceIdFromDeviceList s devices = s := by
        unfold setRealDeviceIdFromDeviceList
        rw [htr]
      rw [hs] at hnew
      rw [hnew] at hold
      cases hold
    · dsimp only
      split
      · rfl
      · rename_i hcond
        exfalso
        apply hcond
        simp only [setRealDeviceIdFromDeviceList, htr] at hnew
        simp only [setRealDeviceIdFromDeviceList, htr]
        simp [hnew, hold]
  · intro s devices t htr hrs hnew hfind
    rw [onDeviceListWillChange_realDeviceId] at hnew hfind
    unfold onDeviceListWillChange
    rw [htr]
    dsimp only
    split
    · rfl
    · rename_i hcond
      exfalso
      apply hcond
      simp only [setRealDeviceIdFromDeviceList, htr] at hnew hfind
      simp only [setRealDeviceIdFromDeviceList, htr]
      simp [hrs, hnew, hfind]
  · intro dss
    induction dss with
    | nil => intro s h; exact h
    | cons ds rest ih =>
      intro s h
      exact ih (onDeviceListWillChange s ds) (onDeviceListWillChange_ended_mono s ds h)

/-- Witness for C8: notifying the empty device list marks the resolved
track ended, and a later notification in which `"A"` reappears does not
clear the flag. -/
theorem deviceWatch_ended_sticky_witness :
    (onDeviceListWillChange trackResolvedA []).trackEnded = true ∧
    (foldDeviceNotifications [[deviceA]] endedTrackA).trackEnded = true :=
  ⟨deviceWatch_ended_sticky.1 trackResolvedA [] rfl rfl,
    deviceWatch_ended_sticky.2.2 [[deviceA]] endedTrackA rfl⟩

/-! ## C9 — effects on hard-muted video tracks are recorded, then started on unmute -/

/-- C9: on a hard-muted (streamless) video track, `setEffect` with a
compatible effect only records the effect — no state change besides the
recorded effect, no external call, immediate resolution; and on the next
hard unmute the recorded effect is started right after the freshly acquired
handle is adopted: the final state carries the effect, stashes the adopted
stream as the pre-effect stream, exposes the effect's output stream, and
the trace shows acquisition followed by the effect start. -/
theorem setEffect_muted_video_lazy (cfg : BrowserCfg) (env : MuteEnv) :
    (∀ s e,
        s.stream = none → s.mediaType = MediaType.video →
        e.isEnabledRes = true → s.setEffectInProgress = false →
        setEffectFn env s (some e) = ({ s with streamEffect := some e }, [], Except.ok ())) ∧
    (∀ s e info,
        s.mediaType = MediaType.video →
        doesVideoMuteByStreamRemove cfg s = true →
        s.disposed = false →
        s.stream = none →
        s.streamEffect = some e →
        env.obtainRes = Except.ok [info] →
        info.track.kind = MediaType.video →
        ((setMutedFn cfg env s false).1.streamEffect = some e ∧
          (setMutedFn cfg env s false).1.originalStream = info.stream ∧
          (setMutedFn cfg env s false).1.stream = some (e.start info.stream) ∧
          ∃ rest, (setMutedFn cfg env s false).2.1
            = Ev.obtainCapture :: Ev.startEffectEv :: rest)) := by
  constructor
  · intro s e h1 h2 h3 h4
    simp [setEffectFn, isMutedFn, h1, h2, h3, h4]
  · intro s e info hmt hdv hd hstream heff hob hkind
    have hmut : isMutedFn s = true := by
      simp [isMutedFn, hstream]
    have hf : List.find? (fun i => i.track.kind == s.mediaType) [info] = some info := by
      simp [hmt, hkind]
    cases hconf : s.hasConference <;> cases hadd : env.addToPcRes <;>
      simp [setMutedFn, finishMute, sendMuteStatusEvs, startStreamEffectFn,
        hmut, hd, hmt, hdv, hob, hf, heff, hconf, hadd, hkind]

/-- Witness for C9: recording an effect on a hard-muted camera track, and
starting the recorded effect during the next unmute after handle adoption. -/
theorem setEffect_muted_video_lazy_witness :
    setEffectFn env0 mutedVideoNoEffect (some effLazy)
      = ({ mutedVideoNoEffect with streamEffect := some effLazy }, [], Except.ok ()) ∧
    ((setMutedFn cfgStreamRemove envCam hardMutedVideoWithEffect false).1.streamEffect
        = some effLazy ∧
      (setMutedFn cfgStreamRemove envCam hardMutedVideoWithEffect false).1.originalStream
        = camInfo.stream ∧
      (setMutedFn cfgStreamRemove envCam hardMutedVideoWithEffect false).1.stream
        = some (effLazy.start camInfo.stream) ∧
      ∃ rest, (setMutedFn cfgStreamRemove envCam hardMutedVideoWithEffect false).2.1
        = Ev.obtainCapture :: Ev.startEffectEv :: rest) :=
  ⟨(setEffect_muted_video_lazy cfgStreamRemove env0).1 mutedVideoNoEffect effLazy
      rfl rfl rfl rfl,
    (setEffect_muted_video_lazy cfgStreamRemove envCam).2 hardMutedVideoWithEffect effLazy
      camInfo rfl rfl rfl rfl rfl rfl rfl⟩

/-! ## C3 — applyConstraints retry semantics -/

/-- C3 counterexample: when re-acquisition with the new constraints fails
and re-acquisition with the pre-change settings succeeds, `applyConstraints`
*resolves* instead of rejecting, and the retry passes the *new* device id
`"X"` (not the original one) as the device-id option. -/
theorem applyConstraints_retry_counterexample :
    (applyConstraintsFn envC3 trackC3 consX).2.2 = Except.ok () ∧
    (applyConstraintsFn envC3 trackC3 consX).2.1 =
      [Ev.removeFromPc, Ev.releaseCapture,
        Ev.obtainWithReq ⟨mergeSettings origSettings consX, some "X"⟩,
        Ev.obtainWithReq ⟨origSettings, some "X"⟩,
        Ev.addToPc] :=
  ⟨rfl, rfl⟩

/-- C3 (amended): for an audio track with no active effect attached to a
conference, when re-acquisition with the merged new constraints fails and
re-acquisition with the pre-change settings succeeds, `applyConstraints`
retries exactly once, passing the pre-change settings as the constraint set
but still the new device id as the device-id option, *resolves*, adopts the
retry's stream and track, and re-attaches the track to its conference. -/
theorem applyConstraints_retry_resolves (env : ApplyEnv) (s : TrackState)
    (cons : AudioSettings) (t : MTrack) (d : StreamInfo) (st : MStream) (msg : String)
    (hmt : s.mediaType = MediaType.audio)
    (heff : s.streamEffect = none)
    (hconf : s.hasConference = true)
    (htr : s.track = some t)
    (hrem : env.removeFromPcRes = Except.ok ())
    (h1 : env.obtain ⟨mergeSettings t.settings cons, (mergeSettings t.settings cons).deviceId⟩
      = Except.error msg)
    (h2 : env.obtain ⟨t.settings, (mergeSettings t.settings cons).deviceId⟩ = Except.ok [d])
    (hst : d.stream = some st)
    (hadd : env.addToPcRes = Except.ok ()) :
    applyConstraintsFn env s cons
      = ({ s with stopStreamInProgress := false, stream := some st, track := some d.track },
        [Ev.removeFromPc, Ev.releaseCapture,
          Ev.obtainWithReq ⟨mergeSettings t.settings cons, (mergeSettings t.settings cons).deviceId⟩,
          Ev.obtainWithReq ⟨t.settings, (mergeSettings t.settings cons).deviceId⟩,
          Ev.addToPc],
        Except.ok ()) := by
  simp [applyConstraintsFn, hmt, heff, hconf, htr, hrem, h1, h2, hst, hadd]

/-- Witness for C3 (amended): the concrete retry scenario resolves, adopts
the retry stream and re-attaches the track. -/
theorem applyConstraints_retry_resolves_witness :
    applyConstraintsFn envC3 trackC3 consX
      = ({ trackC3 with
            stopStreamInProgress := false
            stream := some retryStream
            track := some retryInfo.track },
        [Ev.removeFromPc, Ev.releaseCapture,
          Ev.obtainWithReq ⟨mergeSettings micTrackC3.settings consX,
            (mergeSettings micTrackC3.settings consX).deviceId⟩,
          Ev.obtainWithReq ⟨micTrackC3.settings,
            (mergeSettings micTrackC3.settings consX).deviceId⟩,
          Ev.addToPc],
        Except.ok ()) :=
  applyConstraints_retry_resolves envC3 trackC3 consX micTrackC3 retryInfo retryStream
    "gum failed" rfl rfl rfl rfl rfl rfl rfl rfl rfl
